import Mathlib

/-!
Verification of the Jira MCP server's tool dispatch, validation and
workflow-handler logic.  The definitions below are a shallow embedding of
the CallToolRequestSchema handler and its helpers from the server source:
the tool registry with its JSON schemas, the per-tool argument validator,
the per-tool handlers (including the multi-step create_issue and
update_issue workflows), and the catch-block error translation.  Remote
Jira API endpoints are modelled as an oracle (`JiraWorld`), and every
remote invocation a handler issues is recorded in an ordered trace.
-/

namespace JiraMcp

/-- JSON values, as far as the server's schemas and handlers inspect them. -/
inductive JVal where
  | jstr : String → JVal
  | jnum : Int → JVal
  | jbool : Bool → JVal
  | jnull : JVal
  | jarr : List JVal → JVal
  | jobj : List (String × JVal) → JVal

/-- A tool-call argument object: `request.params.arguments`. -/
abbrev Args := List (String × JVal)

/-- JavaScript truthiness of a string (empty string is falsy). -/
def strTruthy (s : String) : Bool := !(s == "")

/-- JavaScript truthiness of a JSON value (`""`, `0`, `null`, `false` are falsy). -/
def jvalTruthy : JVal → Bool
  | JVal.jstr s => strTruthy s
  | JVal.jnum n => !(n == 0)
  | JVal.jbool b => b
  | JVal.jnull => false
  | JVal.jarr _ => true
  | JVal.jobj _ => true

/-- Property access `args.k` on the argument object. -/
def getArg (args : Args) (k : String) : Option JVal :=
  (args.find? (fun kv => kv.fst == k)).map (fun kv => kv.snd)

/-- Read a string-typed argument; absent or non-string gives `none`. -/
def getStr (args : Args) (k : String) : Option String :=
  match getArg args k with
  | some (JVal.jstr s) => some s
  | _ => none

/-- Read a string-array-typed argument; absent or non-array gives `none`. -/
def getStrList (args : Args) (k : String) : Option (List String) :=
  match getArg args k with
  | some (JVal.jarr vs) =>
      some (vs.filterMap (fun v => match v with
        | JVal.jstr s => some s
        | _ => none))
  | _ => none

/-- Truthiness of `args.k` (absent property is `undefined`, hence falsy). -/
def truthyArg (args : Args) (k : String) : Bool :=
  match getArg args k with
  | some v => jvalTruthy v
  | none => false

/-- The JSON-schema property kinds that occur in the tool registry. -/
inductive PropType where
  | str : PropType
  | rapid : PropType
  | strArray : PropType
  | strEnum : List String → PropType
deriving DecidableEq

/-- Compiled check of a single schema property against a value:
`str` is `type: string`; `rapid` is the `oneOf` of a number with
`minimum: 1` and a digit string matching the pattern of one or more
digits; `strArray` is an array of strings; `strEnum` a string enum. -/
def checkProp : PropType → JVal → Bool
  | PropType.str, JVal.jstr _ => true
  | PropType.str, _ => false
  | PropType.rapid, JVal.jnum n => n ≥ 1
  | PropType.rapid, JVal.jstr s => !(s == "") && s.all Char.isDigit
  | PropType.rapid, _ => false
  | PropType.strArray, JVal.jarr vs =>
      vs.all (fun v => match v with
        | JVal.jstr _ => true
        | _ => false)
  | PropType.strArray, _ => false
  | PropType.strEnum vals, JVal.jstr s => vals.contains s
  | PropType.strEnum _, _ => false

/-- One tool input schema: declared properties, required keys, whether
additional properties are allowed, and the `minProperties` bound
(0 when the schema does not constrain it). -/
structure ToolSchema where
  props : List (String × PropType)
  required : List String
  addProps : Bool
  minProps : Nat
deriving DecidableEq

/-- The validator compiled from a tool schema, returning the collected
error messages (empty list means the arguments are valid).  It mirrors
the external validation engine on the schema fragment the registry uses:
required keys, `additionalProperties: false`, per-property type checks,
and `minProperties`. -/
def validateErrors (s : ToolSchema) (args : Args) : List String :=
  (s.required.filterMap (fun r =>
    if args.any (fun kv => kv.fst == r) then none
    else some ("must have required property " ++ r)))
  ++ (if s.addProps then []
      else args.filterMap (fun kv =>
        if s.props.any (fun p => p.fst == kv.fst) then none
        else some ("must NOT have additional properties (" ++ kv.fst ++ ")")))
  ++ (args.filterMap (fun kv =>
      match s.props.find? (fun p => p.fst == kv.fst) with
      | some p => if checkProp p.snd kv.snd then none
                  else some (kv.fst ++ " has invalid type")
      | none => none))
  ++ (if args.length < s.minProps then
        ["must NOT have fewer than " ++ toString s.minProps ++ " properties"]
      else [])

/-- A registry entry: tool name and its input schema. -/
structure ToolSpec where
  name : String
  schema : ToolSchema
deriving DecidableEq

/-- The `delete_issue` input schema. -/
def deleteSchema : ToolSchema :=
  ⟨[(("issueKey"), PropType.str)], [("issueKey")], false, 0⟩

/-- The `get_issues` input schema (no `required` and no `anyOf`: an empty
argument object passes this schema). -/
def getIssuesSchema : ToolSchema :=
  ⟨[(("projectKey"), PropType.str), (("rapidView"), PropType.rapid),
    (("jql"), PropType.str)], [], false, 0⟩

/-- The `get_assigned_issues` input schema. -/
def assignedSchema : ToolSchema :=
  ⟨[(("accountId"), PropType.str),
    (("status"), PropType.strEnum [("current"), ("past"), ("all")]),
    (("additionalJql"), PropType.str)], [("accountId")], false, 0⟩

/-- The `update_issue` input schema (`minProperties: 2`). -/
def updateSchema : ToolSchema :=
  ⟨[(("issueKey"), PropType.str), (("summary"), PropType.str),
    (("description"), PropType.str), (("assignee"), PropType.str),
    (("status"), PropType.str), (("priority"), PropType.str)],
   [("issueKey")], false, 2⟩

/-- The empty-object schema shared by the three list tools. -/
def emptySchema : ToolSchema := ⟨[], [], false, 0⟩

/-- The `get_user` input schema. -/
def getUserSchema : ToolSchema :=
  ⟨[(("email"), PropType.str)], [("email")], false, 0⟩

/-- The `create_issue` input schema. -/
def createSchema : ToolSchema :=
  ⟨[(("projectKey"), PropType.str), (("summary"), PropType.str),
    (("issueType"), PropType.str), (("description"), PropType.str),
    (("assignee"), PropType.str), (("labels"), PropType.strArray),
    (("components"), PropType.strArray), (("priority"), PropType.str)],
   [("projectKey"), ("summary"), ("issueType")], false, 0⟩

/-- The `create_issue_link` input schema. -/
def linkSchema : ToolSchema :=
  ⟨[(("inwardIssueKey"), PropType.str), (("outwardIssueKey"), PropType.str),
    (("linkType"), PropType.str)],
   [("inwardIssueKey"), ("outwardIssueKey"), ("linkType")], false, 0⟩

/-- The `get_issue` input schema. -/
def getIssueSchema : ToolSchema :=
  ⟨[(("issueKey"), PropType.str)], [("issueKey")], false, 0⟩

/-- The tool registry, in declaration order, with the schemas as written
in the source (every one of them sets `additionalProperties: false`). -/
def tools : List ToolSpec :=
  [ ⟨("delete_issue"), deleteSchema⟩
  , ⟨("get_issues"), getIssuesSchema⟩
  , ⟨("get_assigned_issues"), assignedSchema⟩
  , ⟨("update_issue"), updateSchema⟩
  , ⟨("list_fields"), emptySchema⟩
  , ⟨("list_issue_types"), emptySchema⟩
  , ⟨("list_link_types"), emptySchema⟩
  , ⟨("get_user"), getUserSchema⟩
  , ⟨("create_issue"), createSchema⟩
  , ⟨("create_issue_link"), linkSchema⟩
  , ⟨("get_issue"), getIssueSchema⟩ ]

/-- The dispatcher's registry lookup `tools.find(t => t.name === name)`. -/
def toolByName (nm : String) : Option ToolSpec :=
  tools.find? (fun t => t.name == nm)

/-- The MCP error codes the server uses. -/
inductive ErrorCode where
  | methodNotFound : ErrorCode
  | invalidParams : ErrorCode
  | invalidRequest : ErrorCode
  | internalError : ErrorCode
deriving DecidableEq

/-- The numeric value of each MCP error code. -/
def ErrorCode.num : ErrorCode → Int
  | ErrorCode.methodNotFound => -32601
  | ErrorCode.invalidParams => -32602
  | ErrorCode.invalidRequest => -32600
  | ErrorCode.internalError => -32603

/-- An error object coming back from the remote Jira API: the fields the
catch block inspects (`error.status`, `error.errorMessages`,
`error.message`), each possibly absent. -/
structure JiraErr where
  status : Option Nat
  errorMessages : Option (List String)
  message : Option String
deriving DecidableEq

/-- An error escaping a workflow handler inside the dispatcher's `try`
block: either an `McpError` the handler threw itself, or a remote API
error. -/
inductive ThrownError where
  | mcp : ErrorCode → String → ThrownError
  | jira : JiraErr → ThrownError
deriving DecidableEq

/-- The structured error the dispatcher surfaces to the host
(`McpError(code, message, { originalError })`). -/
structure McpError where
  code : ErrorCode
  msg : String
  originalError : Option ThrownError
deriving DecidableEq

/-- The `message` field of a thrown error as JavaScript sees it: an
`McpError` constructed with code `c` and text `m` has message
`MCP error c: m`; a remote error carries its own message. -/
def thrownMessageField : ThrownError → Option String
  | ThrownError.mcp c m => some ("MCP error " ++ toString c.num ++ ": " ++ m)
  | ThrownError.jira e => e.message

/-- The `errorMessages` field of a thrown error (`McpError` has none). -/
def thrownErrorMessages : ThrownError → Option (List String)
  | ThrownError.mcp _ _ => none
  | ThrownError.jira e => e.errorMessages

/-- The `status` field of a thrown error (`McpError` has none). -/
def thrownStatusField : ThrownError → Option Nat
  | ThrownError.mcp _ _ => none
  | ThrownError.jira e => e.status

/-- The catch block's
`error?.errorMessages?.join(", ") || error?.message || "An unknown error occurred"`,
with JavaScript truthiness (an empty join result or empty message falls
through to the next alternative). -/
def jsErrMessage (e : ThrownError) : String :=
  let fromList :=
    match thrownErrorMessages e with
    | some msgs => String.intercalate (", ") msgs
    | none => ""
  if strTruthy fromList then fromList
  else
    match thrownMessageField e with
    | some m => if strTruthy m then m else "An unknown error occurred"
    | none => "An unknown error occurred"

/-- The catch block's `error?.status || 500` (missing or zero status
defaults to 500). -/
def jsErrStatus (e : ThrownError) : Nat :=
  match thrownStatusField e with
  | some n => if n == 0 then 500 else n
  | none => 500

/-- The catch block's status-code classification:
400 maps to `InvalidParams`, 401/403 to `InvalidRequest` (permission
denied), 404 to `InvalidRequest` (resource not found), anything else to
`InternalError`. -/
def classifyStatus (n : Nat) : ErrorCode :=
  if n == 400 then ErrorCode.invalidParams
  else if n == 401 || n == 403 then ErrorCode.invalidRequest
  else if n == 404 then ErrorCode.invalidRequest
  else ErrorCode.internalError

/-- The catch block: re-express any error escaping a handler as a
structured `McpError` whose message embeds the upstream status and
message text, attaching the original error. -/
def translateError (e : ThrownError) : McpError :=
  { code := classifyStatus (jsErrStatus e)
  , msg := "Jira API Error (" ++ toString (jsErrStatus e) ++ "): " ++ jsErrMessage e
  , originalError := some e }

/-- The field-update payload `update_issue` assembles for `editIssue`.
The assignee entry distinguishes an explicit `null` (unassign, written
`some none`) from `{ name: a }` (written `some (some a)`). -/
structure FieldsUpdate where
  summary : Option String
  description : Option String
  assignee : Option (Option String)
  priority : Option String
deriving DecidableEq

/-- `Object.keys(fieldsToUpdate).length > 0` is the negation of this. -/
def FieldsUpdate.isEmpty (f : FieldsUpdate) : Bool :=
  f.summary.isNone && f.description.isNone && f.assignee.isNone && f.priority.isNone

/-- The `fields` payload `create_issue` assembles for `createIssue`.
`components` is the resolved id list; the JSON payload carries a
`components` entry exactly when the list is non-empty, and a `labels`
entry exactly when the argument was provided. -/
structure CreateFields where
  projectId : String
  summary : String
  issuetypeId : String
  description : Option String
  assignee : Option String
  labels : Option (List String)
  components : List String
  priority : Option String
deriving DecidableEq

/-- A record with optional `id` and `name`, as returned by the priority,
issue-type and component list endpoints. -/
structure NamedId where
  id : Option String
  name : Option String
deriving DecidableEq

/-- The JSON rendering of a record with optional `id` and `name`, used
when such a list is returned verbatim as a tool result. -/
def NamedId.toJVal (x : NamedId) : JVal :=
  JVal.jobj
    ((match x.id with
      | some i => [(("id"), JVal.jstr i)]
      | none => [])
     ++ (match x.name with
      | some n => [(("name"), JVal.jstr n)]
      | none => []))

/-- One transition record: its `id` and the destination status name
`t.to?.name` (collapsed to one optional field, which is the only way the
handler reads it). -/
structure Transition where
  id : Option String
  toName : Option String
deriving DecidableEq

/-- One remote Jira API invocation, as recorded in the trace. -/
inductive RemoteCall where
  | deleteIssue : String → RemoteCall
  | search : String → RemoteCall
  | getBoard : Int → RemoteCall
  | getConfiguration : Int → RemoteCall
  | getFilter : Int → RemoteCall
  | getPriorities : RemoteCall
  | getTransitions : String → RemoteCall
  | editIssue : String → FieldsUpdate → RemoteCall
  | doTransition : String → String → RemoteCall
  | getIssue : String → RemoteCall
  | getProject : String → RemoteCall
  | getIssueAllTypes : RemoteCall
  | getProjectComponents : String → RemoteCall
  | findUsers : String → RemoteCall
  | linkIssues : String → String → String → RemoteCall
  | getFields : RemoteCall
  | getLinkTypes : RemoteCall
  | createIssue : CreateFields → RemoteCall
deriving DecidableEq

/-- The remote Jira API as an oracle: the response (or error) each
endpoint would give.  `getProjectIdR` is the `id` of the project record,
`getConfigFilterIdR` the board configuration's `filter?.id`,
`getFilterJqlR` the filter's `jql` field. -/
structure JiraWorld where
  deleteIssueR : String → Except JiraErr Unit
  searchR : String → Except JiraErr JVal
  getBoardR : Int → Except JiraErr JVal
  getConfigFilterIdR : Int → Except JiraErr (Option Int)
  getFilterJqlR : Int → Except JiraErr (Option String)
  getPrioritiesR : Except JiraErr (List NamedId)
  getTransitionsR : String → Except JiraErr (List Transition)
  editIssueR : String → FieldsUpdate → Except JiraErr Unit
  doTransitionR : String → String → Except JiraErr Unit
  getIssueR : String → Except JiraErr JVal
  getProjectIdR : String → Except JiraErr (Option String)
  getIssueAllTypesR : Except JiraErr (List NamedId)
  getProjectComponentsR : String → Except JiraErr (List NamedId)
  findUsersR : String → Except JiraErr (List (Option String × JVal))
  linkIssuesR : String → String → String → Except JiraErr Unit
  getFieldsR : Except JiraErr JVal
  getLinkTypesR : Except JiraErr JVal
  createIssueR : CreateFields → Except JiraErr JVal

/-- What a tool call hands back on success: either the normal envelope
(one text element with the serialized payload) or — only on
`update_issue`'s no-op path, which returns from the handler before the
wrapping step — the bare `{ success, message }` object. -/
inductive ToolResult where
  | wrapped : JVal → ToolResult
  | raw : Bool → String → ToolResult

/-- Handler computations: thread the ordered trace of remote calls and
stop at the first uncaught error. -/
def M (α : Type) : Type :=
  List RemoteCall → Except ThrownError α × List RemoteCall

instance : Monad M where
  pure a := fun t => (Except.ok a, t)
  bind x f := fun t =>
    match x t with
    | (Except.ok a, t') => f a t'
    | (Except.error e, t') => (Except.error e, t')

/-- Issue one remote call: record it in the trace, then return the
oracle's response or propagate its error. -/
def callR (c : RemoteCall) (r : Except JiraErr α) : M α := fun t =>
  (match r with
   | Except.ok a => Except.ok a
   | Except.error e => Except.error (ThrownError.jira e), t ++ [c])

/-- Throw inside the dispatcher's `try` block. -/
def throwM (e : ThrownError) : M α := fun t => (Except.error e, t)

/-- A `try`/`catch` that swallows the error and continues with the
fallback; calls already issued stay in the trace. -/
def tryCatchM (x : M α) (h : M α) : M α := fun t =>
  match x t with
  | (Except.ok a, t') => (Except.ok a, t')
  | (Except.error _, t') => h t'

theorem M.bind_app (x : M α) (f : α → M β) (t : List RemoteCall) :
    (x >>= f) t = match x t with
      | (Except.ok a, t') => f a t'
      | (Except.error e, t') => (Except.error e, t') := rfl

theorem M.pure_app (a : α) (t : List RemoteCall) :
    (pure a : M α) t = (Except.ok a, t) := rfl

theorem callR_ok (c : RemoteCall) (a : α) (t : List RemoteCall) :
    callR c (Except.ok a) t = (Except.ok a, t ++ [c]) := rfl

theorem callR_err (c : RemoteCall) (e : JiraErr) (t : List RemoteCall) :
    callR (α := α) c (Except.error e) t
      = (Except.error (ThrownError.jira e), t ++ [c]) := rfl

theorem tryCatchM_app (x h : M α) (t : List RemoteCall) :
    tryCatchM x h t = match x t with
      | (Except.ok a, t') => (Except.ok a, t')
      | (Except.error _, t') => h t' := rfl

theorem throwM_app (e : ThrownError) (t : List RemoteCall) :
    (throwM e : M α) t = (Except.error e, t) := rfl

/-- ASCII lowercasing of a string, modelling `toLowerCase()` on the
names this server compares (implemented character-by-character so it
evaluates inside the kernel). -/
def lowerStr (s : String) : String := String.mk (s.data.map Char.toLower)

/-- The predicate of the case-insensitive exact name match
`x.name?.toLowerCase() === target.toLowerCase()` (a missing name never
matches). -/
def nameMatches (target : String) (x : NamedId) : Bool :=
  match x.name with
  | some n => lowerStr n == lowerStr target
  | none => false

/-- The predicate matching a transition's destination-state name
`t.to?.name?.toLowerCase() === target.toLowerCase()`. -/
def toNameMatches (target : String) (t : Transition) : Bool :=
  match t.toName with
  | some n => lowerStr n == lowerStr target
  | none => false

/-- Case-insensitive exact name match followed by the truthiness check on
the record's id: `find(x => x.name?.toLowerCase() === target.toLowerCase())`
and then `x.id` must be present and non-empty.  Used for priorities,
issue types and components. -/
def resolveNamedId (xs : List NamedId) (target : String) : Option String :=
  match xs.find? (nameMatches target) with
  | some x =>
      match x.id with
      | some i => if strTruthy i then some i else none
      | none => none
  | none => none

/-- Case-insensitive match of the target status name against each
transition's destination-state name, keeping the transition id when it is
present and truthy. -/
def resolveTransitionId (ts : List Transition) (target : String) : Option String :=
  match ts.find? (toNameMatches target) with
  | some t =>
      match t.id with
      | some i => if strTruthy i then some i else none
      | none => none
  | none => none

/-- `if (x) fields.k = x`: keep an optional string only when truthy. -/
def optTruthyFilter : Option String → Option String
  | some s => if strTruthy s then some s else none
  | none => none

/-- The `{ success: true, message: m }` objects the delete and link
handlers build. -/
def successMsg (m : String) : JVal :=
  JVal.jobj [(("success"), JVal.jbool true), (("message"), JVal.jstr m)]

/-- `parseInt` on a digit string. -/
def parseDigits (s : String) : Int :=
  Int.ofNat (s.foldl (fun acc c => acc * 10 + (c.toNat - 48)) 0)

/-- The text interpolation of an argument value into an error message. -/
def jvalText : JVal → String
  | JVal.jstr s => s
  | JVal.jnum n => toString n
  | JVal.jbool b => toString b
  | JVal.jnull => "null"
  | JVal.jarr _ => "array"
  | JVal.jobj _ => "object"

/-- Issue the search for a JQL string and wrap its result (the shared
tail `result = await searchForIssuesUsingJql({ jql })` of the two search
tools). -/
def searchAndWrap (w : JiraWorld) (jql : String) : M ToolResult := do
  let r ← callR (RemoteCall.search jql) (w.searchR jql)
  pure (ToolResult.wrapped r)

/-- The `delete_issue` handler. -/
def deleteIssueM (w : JiraWorld) (args : Args) : M ToolResult := do
  let key := (getStr args ("issueKey")).getD ("")
  let _ ← callR (RemoteCall.deleteIssue key) (w.deleteIssueR key)
  pure (ToolResult.wrapped (successMsg ("Issue " ++ key ++ " deleted successfully.")))

/-- The JQL `get_issues` builds in the project branch:
`project = "key"`, with a truthy user JQL appended by a bare `AND`
(no parenthesization). -/
def projectJql (pk : String) (jqlArg : Option String) : String :=
  match jqlArg with
  | some u =>
      if strTruthy u then "project = \"" ++ pk ++ "\" AND " ++ u
      else "project = \"" ++ pk ++ "\""
  | none => "project = \"" ++ pk ++ "\""

/-- The `get_issues` handler: rapid-view branch (board, configuration,
filter, then search on the filter JQL, with a user JQL appended
parenthesized) or project branch (search on `project = "key"`, with a
user JQL appended with a bare `AND`), else the missing-arguments throw. -/
def getIssuesM (w : JiraWorld) (args : Args) : M ToolResult :=
  if truthyArg args ("rapidView") then
    let bid : Int :=
      match getArg args ("rapidView") with
      | some (JVal.jstr s) => parseDigits s
      | some (JVal.jnum n) => n
      | _ => 0
    do
      if bid ≤ 0 then
        throwM (ThrownError.mcp ErrorCode.invalidParams
          ("Invalid rapidView ID: " ++ jvalText ((getArg args ("rapidView")).getD JVal.jnull)
            ++ ". Must be a positive integer."))
      else
        let _ ← callR (RemoteCall.getBoard bid) (w.getBoardR bid)
        let fidOpt ← callR (RemoteCall.getConfiguration bid) (w.getConfigFilterIdR bid)
        match fidOpt with
        | some fid =>
            if fid == 0 then
              throwM (ThrownError.mcp ErrorCode.invalidParams
                ("Board " ++ toString bid ++ " has no filter configured"))
            else do
              let fjOpt ← callR (RemoteCall.getFilter fid) (w.getFilterJqlR fid)
              match fjOpt with
              | some fj =>
                  if strTruthy fj then
                    searchAndWrap w
                      (match getStr args ("jql") with
                       | some u => if strTruthy u then fj ++ " AND (" ++ u ++ ")" else fj
                       | none => fj)
                  else
                    throwM (ThrownError.mcp ErrorCode.invalidParams
                      ("Filter " ++ toString fid ++ " has no JQL configured"))
              | none =>
                  throwM (ThrownError.mcp ErrorCode.invalidParams
                    ("Filter " ++ toString fid ++ " has no JQL configured"))
        | none =>
            throwM (ThrownError.mcp ErrorCode.invalidParams
              ("Board " ++ toString bid ++ " has no filter configured"))
  else if truthyArg args ("projectKey") then
    searchAndWrap w (projectJql ((getStr args ("projectKey")).getD ("")) (getStr args ("jql")))
  else
    throwM (ThrownError.mcp ErrorCode.invalidParams
      ("Either projectKey or rapidView must be provided"))

/-- The base JQL filter `get_assigned_issues` builds from the status
argument (the switch defaults to current assignment). -/
def assignedBaseJql (a : String) (st : Option String) : String :=
  match st with
  | some ("past") => "assignee WAS \"" ++ a ++ "\""
  | some ("all") =>
      "(assignee = \"" ++ a ++ "\" OR assignee WAS \"" ++ a ++ "\")"
  | _ => "assignee = \"" ++ a ++ "\""

/-- The JQL `get_assigned_issues` issues: the base filter, with a truthy
`additionalJql` appended parenthesized. -/
def assignedJql (args : Args) : String :=
  let base := assignedBaseJql ((getStr args ("accountId")).getD ("")) (getStr args ("status"))
  match getStr args ("additionalJql") with
  | some q => if strTruthy q then base ++ " AND (" ++ q ++ ")" else base
  | none => base

/-- The `get_assigned_issues` handler. -/
def getAssignedIssuesM (w : JiraWorld) (args : Args) : M ToolResult :=
  searchAndWrap w (assignedJql args)

/-- The field-update set `update_issue` builds before resolving the
priority: summary and description are added when truthy; the assignee is
added whenever the argument is present, as `null` for the literal string
value `null` (unassign) and as `{ name: a }` otherwise. -/
def updBaseFields (sm ds asg : Option String) : FieldsUpdate :=
  { summary := optTruthyFilter sm
  , description := optTruthyFilter ds
  , assignee :=
      match asg with
      | some a => if a == "null" then some none else some (some a)
      | none => none
  , priority := none }

/-- The best-effort priority resolution step of `update_issue`: when a
truthy priority name is given, fetch the priorities and add the resolved
id to the field set; on no match or remote error, leave the set
unchanged. -/
def updPrioStep (w : JiraWorld) (pr : Option String) (f0 : FieldsUpdate) :
    M FieldsUpdate :=
  match pr with
  | some p =>
      if strTruthy p then
        tryCatchM
          (do
            let ps ← callR RemoteCall.getPriorities w.getPrioritiesR
            match resolveNamedId ps p with
            | some i => pure { f0 with priority := some i }
            | none => pure f0)
          (pure f0)
      else pure f0
  | none => pure f0

/-- The best-effort transition resolution step of `update_issue`: when a
truthy status is given, fetch the issue's transitions and resolve the
target status to a transition id; on no match or remote error, resolve to
nothing. -/
def updTransStep (w : JiraWorld) (k : String) (st : Option String) :
    M (Option String) :=
  match st with
  | some s =>
      if strTruthy s then
        tryCatchM
          (do
            let ts ← callR (RemoteCall.getTransitions k) (w.getTransitionsR k)
            pure (resolveTransitionId ts s))
          (pure none)
      else pure none
  | none => pure none

/-- The no-op message `update_issue` returns when there is nothing to do. -/
def noopMsg (k : String) : String :=
  "No valid fields or status transition provided for issue " ++ k
    ++ ". No update performed."

/-- The `update_issue` handler: build the field set, resolve priority and
transition best-effort, then edit fields first (if any), transition
second (if resolved), and finally read the issue back — or return the
bare no-op object without any mutation when both steps are empty. -/
def updateIssueM (w : JiraWorld) (args : Args) : M ToolResult :=
  let issueKey := (getStr args ("issueKey")).getD ("")
  let f0 := updBaseFields (getStr args ("summary")) (getStr args ("description"))
      (getStr args ("assignee"))
  do
    let f1 ← updPrioStep w (getStr args ("priority")) f0
    let tid ← updTransStep w issueKey (getStr args ("status"))
    let finish : M ToolResult :=
      match tid with
      | some i => do
          let _ ← callR (RemoteCall.doTransition issueKey i) (w.doTransitionR issueKey i)
          let r ← callR (RemoteCall.getIssue issueKey) (w.getIssueR issueKey)
          pure (ToolResult.wrapped r)
      | none => do
          let r ← callR (RemoteCall.getIssue issueKey) (w.getIssueR issueKey)
          pure (ToolResult.wrapped r)
    if f1.isEmpty then
      if tid.isNone then pure (ToolResult.raw true (noopMsg issueKey))
      else finish
    else do
      let _ ← callR (RemoteCall.editIssue issueKey f1) (w.editIssueR issueKey f1)
      finish

/-- The `get_user` handler: search users by the email, then require a
first candidate whose `emailAddress` matches case-insensitively. -/
def getUserM (w : JiraWorld) (args : Args) : M ToolResult := do
  let email := (getStr args ("email")).getD ("")
  let us ← callR (RemoteCall.findUsers email) (w.findUsersR email)
  match us with
  | u :: _ =>
      match u.fst with
      | some e =>
          if lowerStr e == lowerStr email then pure (ToolResult.wrapped u.snd)
          else throwM (ThrownError.mcp ErrorCode.invalidRequest
            ("User with email \"" ++ email ++ "\" not found."))
      | none =>
          throwM (ThrownError.mcp ErrorCode.invalidRequest
            ("User with email \"" ++ email ++ "\" not found."))
  | [] =>
      throwM (ThrownError.mcp ErrorCode.invalidRequest
        ("User with email \"" ++ email ++ "\" not found."))

/-- The best-effort priority resolution step of `create_issue`: when a
truthy priority name is given, fetch the priorities and resolve the id;
on no match or remote error, resolve to nothing (never fatal). -/
def createPrioStep (w : JiraWorld) (pr : Option String) : M (Option String) :=
  match pr with
  | some p =>
      if strTruthy p then
        tryCatchM
          (do
            let ps ← callR RemoteCall.getPriorities w.getPrioritiesR
            pure (resolveNamedId ps p))
          (pure none)
      else pure none
  | none => pure none

/-- The best-effort component resolution step of `create_issue`: when a
non-empty component-name list is given, fetch the project components and
resolve each name, silently dropping unmatched names; on remote error
resolve to the empty list (never fatal). -/
def createCompStep (w : JiraWorld) (pid : String) (cp : Option (List String)) :
    M (List String) :=
  match cp with
  | some cs =>
      if cs.length > 0 then
        tryCatchM
          (do
            let pcs ← callR (RemoteCall.getProjectComponents pid)
                (w.getProjectComponentsR pid)
            pure (cs.filterMap (fun cn => resolveNamedId pcs cn)))
          (pure [])
      else pure []
  | none => pure []

/-- The `fields` payload assembly of `create_issue`: required fields
always present; description and assignee only when truthy; labels
whenever the argument was provided; the resolved component ids (the
payload carries them exactly when the list is non-empty); the resolved
priority id when resolution succeeded. -/
def createFieldsOf (pid sm tyId : String) (ds asg : Option String)
    (lb : Option (List String)) (comps : List String)
    (prioId : Option String) : CreateFields :=
  { projectId := pid
  , summary := sm
  , issuetypeId := tyId
  , description := optTruthyFilter ds
  , assignee := optTruthyFilter asg
  , labels := lb
  , components := comps
  , priority := prioId }

/-- Whether a remote call is the create-issue mutation. -/
def isCreateCall : RemoteCall → Bool
  | RemoteCall.createIssue _ => true
  | _ => false

/-- The `create_issue` handler: resolve the project id (hard fail), the
issue type id (hard fail), the priority id (best effort) and the
component ids (best effort), assemble the fields payload, then issue the
single create mutation. -/
def createIssueM (w : JiraWorld) (args : Args) : M ToolResult :=
  let projectKey := (getStr args ("projectKey")).getD ("")
  let summary := (getStr args ("summary")).getD ("")
  let issueType := (getStr args ("issueType")).getD ("")
  do
    let pidOpt ← callR (RemoteCall.getProject projectKey) (w.getProjectIdR projectKey)
    let pid ←
      match pidOpt with
      | some i =>
          if strTruthy i then pure i
          else throwM (ThrownError.mcp ErrorCode.invalidParams
            ("Could not find project with key \"" ++ projectKey ++ "\"."))
      | none =>
          throwM (ThrownError.mcp ErrorCode.invalidParams
            ("Could not find project with key \"" ++ projectKey ++ "\"."))
    let its ← callR RemoteCall.getIssueAllTypes w.getIssueAllTypesR
    let tyId ←
      match resolveNamedId its issueType with
      | some i => pure i
      | none =>
          throwM (ThrownError.mcp ErrorCode.invalidParams
            ("Issue type \"" ++ issueType ++ "\" not found."))
    let prioId ← createPrioStep w (getStr args ("priority"))
    let compIds ← createCompStep w pid (getStrList args ("components"))
    let fields := createFieldsOf pid summary tyId (getStr args ("description"))
      (getStr args ("assignee")) (getStrList args ("labels")) compIds prioId
    let r ← callR (RemoteCall.createIssue fields) (w.createIssueR fields)
    pure (ToolResult.wrapped r)

/-- The `create_issue_link` handler. -/
def createIssueLinkM (w : JiraWorld) (args : Args) : M ToolResult := do
  let lt := (getStr args ("linkType")).getD ("")
  let inw := (getStr args ("inwardIssueKey")).getD ("")
  let outw := (getStr args ("outwardIssueKey")).getD ("")
  let _ ← callR (RemoteCall.linkIssues lt inw outw) (w.linkIssuesR lt inw outw)
  pure (ToolResult.wrapped (successMsg
    ("Link \x27" ++ lt ++ "\x27 created between " ++ inw ++ " and " ++ outw ++ ".")))

/-- The `get_issue` handler. -/
def getIssueOneM (w : JiraWorld) (args : Args) : M ToolResult := do
  let key := (getStr args ("issueKey")).getD ("")
  let r ← callR (RemoteCall.getIssue key) (w.getIssueR key)
  pure (ToolResult.wrapped r)

/-- The switch over tool names inside the dispatcher's `try` block. -/
def runTool (w : JiraWorld) (nm : String) (args : Args) : M ToolResult :=
  match nm with
  | "delete_issue" => deleteIssueM w args
  | "get_issues" => getIssuesM w args
  | "get_assigned_issues" => getAssignedIssuesM w args
  | "update_issue" => updateIssueM w args
  | "list_fields" => do
      let r ← callR RemoteCall.getFields w.getFieldsR
      pure (ToolResult.wrapped r)
  | "list_issue_types" => do
      let its ← callR RemoteCall.getIssueAllTypes w.getIssueAllTypesR
      pure (ToolResult.wrapped (JVal.jarr (its.map NamedId.toJVal)))
  | "list_link_types" => do
      let r ← callR RemoteCall.getLinkTypes w.getLinkTypesR
      pure (ToolResult.wrapped r)
  | "get_user" => getUserM w args
  | "create_issue" => createIssueM w args
  | "create_issue_link" => createIssueLinkM w args
  | "get_issue" => getIssueOneM w args
  | _ => throwM (ThrownError.mcp ErrorCode.methodNotFound
      ("Handler for tool \"" ++ nm ++ "\" not implemented."))

/-- The complete CallToolRequestSchema handler: registry lookup (throwing
`MethodNotFound` outside the `try` block), argument validation (throwing
`InvalidParams` with the validator's messages outside the `try` block),
then the tool switch inside the `try` block with every escaping error
re-expressed by the catch block.  The second component is the ordered
trace of remote calls issued. -/
def callTool (w : JiraWorld) (nm : String) (args : Args) :
    Except McpError ToolResult × List RemoteCall :=
  match toolByName nm with
  | none =>
      (Except.error ⟨ErrorCode.methodNotFound,
        "Tool \"" ++ nm ++ "\" not found.", none⟩, [])
  | some t =>
      let errs := validateErrors t.schema args
      if errs.isEmpty then
        match runTool w nm args [] with
        | (Except.ok r, tr) => (Except.ok r, tr)
        | (Except.error e, tr) => (Except.error (translateError e), tr)
      else
        (Except.error ⟨ErrorCode.invalidParams,
          "Invalid arguments for tool " ++ nm ++ ": "
            ++ String.intercalate (", ") errs, none⟩, [])

/-- An example remote-API oracle where every endpoint answers: one issue
type named Task, no priorities, no components, one transition to Done. -/
def wEx : JiraWorld :=
  { deleteIssueR := fun _ => Except.ok ()
  , searchR := fun _ => Except.ok (JVal.jobj [])
  , getBoardR := fun _ => Except.ok (JVal.jobj [])
  , getConfigFilterIdR := fun _ => Except.ok (some 1)
  , getFilterJqlR := fun _ => Except.ok (some ("project = B"))
  , getPrioritiesR := Except.ok []
  , getTransitionsR := fun _ => Except.ok [⟨some ("71"), some ("Done")⟩]
  , editIssueR := fun _ _ => Except.ok ()
  , doTransitionR := fun _ _ => Except.ok ()
  , getIssueR := fun _ => Except.ok (JVal.jobj [(("key"), JVal.jstr ("X-1"))])
  , getProjectIdR := fun _ => Except.ok (some ("10000"))
  , getIssueAllTypesR := Except.ok [⟨some ("3"), some ("Task")⟩]
  , getProjectComponentsR := fun _ => Except.ok []
  , findUsersR := fun _ => Except.ok []
  , linkIssuesR := fun _ _ _ => Except.ok ()
  , getFieldsR := Except.ok (JVal.jarr [])
  , getLinkTypesR := Except.ok (JVal.jobj [])
  , createIssueR := fun _ => Except.ok (JVal.jobj [(("key"), JVal.jstr ("X-2"))]) }

/-- A remote error with HTTP status 404, as a deleted-issue lookup
produces it. -/
def jiraErr404 : JiraErr := ⟨some 404, none, some ("Issue does not exist")⟩

/-- An example oracle whose issue endpoints fail with a 404 error. -/
def wErr : JiraWorld :=
  { wEx with
    deleteIssueR := fun _ => Except.error jiraErr404
  , getIssueR := fun _ => Except.error jiraErr404 }

/-- An optional string argument entry. -/
def optEntry (k : String) (v : Option String) : Args :=
  match v with
  | some s => [(k, JVal.jstr s)]
  | none => []

/-- An optional string-array argument entry. -/
def optListEntry (k : String) (v : Option (List String)) : Args :=
  match v with
  | some ls => [(k, JVal.jarr (ls.map JVal.jstr))]
  | none => []

/-- An `update_issue` argument object with a status and any subset of the
other updatable fields. -/
def mkUpdateArgs (k : String) (sm ds asg : Option String) (st : String)
    (pr : Option String) : Args :=
  [(("issueKey"), JVal.jstr k)] ++ optEntry ("summary") sm
    ++ optEntry ("description") ds ++ optEntry ("assignee") asg
    ++ [(("status"), JVal.jstr st)] ++ optEntry ("priority") pr

/-- A `create_issue` argument object. -/
def mkCreateArgs (pk sm it : String) (ds asg : Option String)
    (lb cp : Option (List String)) (pr : Option String) : Args :=
  [(("projectKey"), JVal.jstr pk), (("summary"), JVal.jstr sm),
   (("issueType"), JVal.jstr it)]
    ++ optEntry ("description") ds ++ optEntry ("assignee") asg
    ++ optListEntry ("labels") lb ++ optListEntry ("components") cp
    ++ optEntry ("priority") pr

/-- A `get_assigned_issues` argument object. -/
def mkAssignedArgs (a : String) (st q : Option String) : Args :=
  [(("accountId"), JVal.jstr a)] ++ optEntry ("status") st
    ++ optEntry ("additionalJql") q

/-- A `get_issues` argument object with a project key and no rapid view. -/
def mkIssuesArgs (p : String) (q : Option String) : Args :=
  [(("projectKey"), JVal.jstr p)] ++ optEntry ("jql") q

theorem getStr_update_issueKey (k st : String) (sm ds asg pr : Option String) :
    getStr (mkUpdateArgs k sm ds asg st pr) ("issueKey") = some k := by
  cases sm <;> cases ds <;> cases asg <;> cases pr <;> rfl

theorem getStr_update_summary (k st : String) (sm ds asg pr : Option String) :
    getStr (mkUpdateArgs k sm ds asg st pr) ("summary") = sm := by
  cases sm <;> cases ds <;> cases asg <;> cases pr <;> rfl

theorem getStr_update_description (k st : String) (sm ds asg pr : Option String) :
    getStr (mkUpdateArgs k sm ds asg st pr) ("description") = ds := by
  cases sm <;> cases ds <;> cases asg <;> cases pr <;> rfl

theorem getStr_update_assignee (k st : String) (sm ds asg pr : Option String) :
    getStr (mkUpdateArgs k sm ds asg st pr) ("assignee") = asg := by
  cases sm <;> cases ds <;> cases asg <;> cases pr <;> rfl

theorem getStr_update_status (k st : String) (sm ds asg pr : Option String) :
    getStr (mkUpdateArgs k sm ds asg st pr) ("status") = some st := by
  cases sm <;> cases ds <;> cases asg <;> cases pr <;> rfl

theorem getStr_update_priority (k st : String) (sm ds asg pr : Option String) :
    getStr (mkUpdateArgs k sm ds asg st pr) ("priority") = pr := by
  cases sm <;> cases ds <;> cases asg <;> cases pr <;> rfl

theorem validate_update_args (k st : String) (sm ds asg pr : Option String) :
    validateErrors updateSchema (mkUpdateArgs k sm ds asg st pr) = [] := by
  cases sm <;> cases ds <;> cases asg <;> cases pr <;> rfl

theorem map_jstr_all (ls : List String) :
    ((ls.map JVal.jstr).all (fun v => match v with
      | JVal.jstr _ => true
      | _ => false)) = true := by
  induction ls with
  | nil => rfl
  | cons h t ih => simp only [List.map_cons, List.all_cons, ih, Bool.and_true]

theorem filterMap_jstr (ls : List String) :
    (ls.map JVal.jstr).filterMap (fun v => match v with
      | JVal.jstr s => some s
      | _ => none) = ls := by
  induction ls with
  | nil => rfl
  | cons h t ih => simp only [List.map_cons, List.filterMap_cons, ih]

theorem getStr_create_projectKey (pk sm it : String) (ds asg : Option String)
    (lb cp : Option (List String)) (pr : Option String) :
    getStr (mkCreateArgs pk sm it ds asg lb cp pr) ("projectKey") = some pk := by
  cases ds <;> cases asg <;> cases lb <;> cases cp <;> cases pr <;> rfl

theorem getStr_create_summary (pk sm it : String) (ds asg : Option String)
    (lb cp : Option (List String)) (pr : Option String) :
    getStr (mkCreateArgs pk sm it ds asg lb cp pr) ("summary") = some sm := by
  cases ds <;> cases asg <;> cases lb <;> cases cp <;> cases pr <;> rfl

theorem getStr_create_issueType (pk sm it : String) (ds asg : Option String)
    (lb cp : Option (List String)) (pr : Option String) :
    getStr (mkCreateArgs pk sm it ds asg lb cp pr) ("issueType") = some it := by
  cases ds <;> cases asg <;> cases lb <;> cases cp <;> cases pr <;> rfl

theorem getStr_create_description (pk sm it : String) (ds asg : Option String)
    (lb cp : Option (List String)) (pr : Option String) :
    getStr (mkCreateArgs pk sm it ds asg lb cp pr) ("description") = ds := by
  cases ds <;> cases asg <;> cases lb <;> cases cp <;> cases pr <;> rfl

theorem getStr_create_assignee (pk sm it : String) (ds asg : Option String)
    (lb cp : Option (List String)) (pr : Option String) :
    getStr (mkCreateArgs pk sm it ds asg lb cp pr) ("assignee") = asg := by
  cases ds <;> cases asg <;> cases lb <;> cases cp <;> cases pr <;> rfl

theorem getStr_create_priority (pk sm it : String) (ds asg : Option String)
    (lb cp : Option (List String)) (pr : Option String) :
    getStr (mkCreateArgs pk sm it ds asg lb cp pr) ("priority") = pr := by
  cases ds <;> cases asg <;> cases lb <;> cases cp <;> cases pr <;> rfl

theorem getArg_create_labels (pk sm it : String) (ds asg : Option String)
    (lb cp : Option (List String)) (pr : Option String) :
    getArg (mkCreateArgs pk sm it ds asg lb cp pr) ("labels")
      = (match lb with
         | some ls => some (JVal.jarr (ls.map JVal.jstr))
         | none => none) := by
  cases ds <;> cases asg <;> cases lb <;> cases cp <;> cases pr <;> rfl

theorem getArg_create_components (pk sm it : String) (ds asg : Option String)
    (lb cp : Option (List String)) (pr : Option String) :
    getArg (mkCreateArgs pk sm it ds asg lb cp pr) ("components")
      = (match cp with
         | some ls => some (JVal.jarr (ls.map JVal.jstr))
         | none => none) := by
  cases ds <;> cases asg <;> cases lb <;> cases cp <;> cases pr <;> rfl

theorem getStrList_create_labels (pk sm it : String) (ds asg : Option String)
    (lb cp : Option (List String)) (pr : Option String) :
    getStrList (mkCreateArgs pk sm it ds asg lb cp pr) ("labels") = lb := by
  have h := getArg_create_labels pk sm it ds asg lb cp pr
  cases lb with
  | none => simp [getStrList, h]
  | some ls =>
      simp only [getStrList, h]
      rw [filterMap_jstr]

theorem getStrList_create_components (pk sm it : String) (ds asg : Option String)
    (lb cp : Option (List String)) (pr : Option String) :
    getStrList (mkCreateArgs pk sm it ds asg lb cp pr) ("components") = cp := by
  have h := getArg_create_components pk sm it ds asg lb cp pr
  cases cp with
  | none => simp [getStrList, h]
  | some ls =>
      simp only [getStrList, h]
      rw [filterMap_jstr]

set_option maxHeartbeats 1000000 in
theorem validate_create_args (pk sm it : String) (ds asg : Option String)
    (lb cp : Option (List String)) (pr : Option String) :
    validateErrors createSchema (mkCreateArgs pk sm it ds asg lb cp pr) = [] := by
  cases ds <;> cases asg <;> cases lb <;> cases cp <;> cases pr <;>
    simp only [validateErrors, createSchema, mkCreateArgs, optEntry, optListEntry,
      List.filterMap_cons, List.filterMap_nil, List.filterMap_append,
      List.cons_append, List.nil_append, List.append_nil,
      List.find?, List.any, map_jstr_all, checkProp, List.length,
      String.reduceEq, String.reduceBEq, Bool.or_false, Bool.false_or,
      if_true, if_false, reduceIte, List.append_assoc] <;> rfl

theorem getStr_assigned_accountId (a : String) (st q : Option String) :
    getStr (mkAssignedArgs a st q) ("accountId") = some a := by
  cases st <;> cases q <;> rfl

theorem getStr_assigned_status (a : String) (st q : Option String) :
    getStr (mkAssignedArgs a st q) ("status") = st := by
  cases st <;> cases q <;> rfl

theorem getStr_assigned_additionalJql (a : String) (st q : Option String) :
    getStr (mkAssignedArgs a st q) ("additionalJql") = q := by
  cases st <;> cases q <;> rfl

theorem validate_assigned_args (a : String) (st q : Option String)
    (hst : st = none ∨ st = some ("current") ∨ st = some ("past")
      ∨ st = some ("all")) :
    validateErrors assignedSchema (mkAssignedArgs a st q) = [] := by
  rcases hst with h | h | h | h <;> subst h <;> cases q <;> rfl

theorem getStr_issues_projectKey (p : String) (q : Option String) :
    getStr (mkIssuesArgs p q) ("projectKey") = some p := by
  cases q <;> rfl

theorem getStr_issues_jql (p : String) (q : Option String) :
    getStr (mkIssuesArgs p q) ("jql") = q := by
  cases q <;> rfl

theorem truthy_issues_rapidView (p : String) (q : Option String) :
    truthyArg (mkIssuesArgs p q) ("rapidView") = false := by
  cases q <;> rfl

theorem truthy_issues_projectKey (p : String) (q : Option String) :
    truthyArg (mkIssuesArgs p q) ("projectKey") = strTruthy p := by
  cases q <;> rfl

theorem validate_issues_args (p : String) (q : Option String) :
    validateErrors getIssuesSchema (mkIssuesArgs p q) = [] := by
  cases q <;> rfl

theorem callTool_notFound (w : JiraWorld) (nm : String) (args : Args)
    (h : toolByName nm = none) :
    callTool w nm args
      = (Except.error ⟨ErrorCode.methodNotFound,
          "Tool \"" ++ nm ++ "\" not found.", none⟩, []) := by
  unfold callTool
  rw [h]

theorem callTool_invalid (w : JiraWorld) (nm : String) (args : Args)
    (t : ToolSpec) (ht : toolByName nm = some t)
    (hv : validateErrors t.schema args ≠ []) :
    callTool w nm args
      = (Except.error ⟨ErrorCode.invalidParams,
          "Invalid arguments for tool " ++ nm ++ ": "
            ++ String.intercalate (", ") (validateErrors t.schema args), none⟩,
         []) := by
  unfold callTool
  rw [ht]
  have he : (validateErrors t.schema args).isEmpty = false := by
    cases h : validateErrors t.schema args with
    | nil => exact absurd h hv
    | cons a l => rfl
  simp only [he, Bool.false_eq_true, if_false]

theorem callTool_run_ok (w : JiraWorld) (nm : String) (args : Args)
    (t : ToolSpec) (r : ToolResult) (tr : List RemoteCall)
    (ht : toolByName nm = some t) (hv : validateErrors t.schema args = [])
    (hr : runTool w nm args [] = (Except.ok r, tr)) :
    callTool w nm args = (Except.ok r, tr) := by
  unfold callTool
  rw [ht]
  simp only [hv, List.isEmpty_nil, if_true, hr]

theorem callTool_run_err (w : JiraWorld) (nm : String) (args : Args)
    (t : ToolSpec) (e : ThrownError) (tr : List RemoteCall)
    (ht : toolByName nm = some t) (hv : validateErrors t.schema args = [])
    (hr : runTool w nm args [] = (Except.error e, tr)) :
    callTool w nm args = (Except.error (translateError e), tr) := by
  unfold callTool
  rw [ht]
  simp only [hv, List.isEmpty_nil, if_true, hr]

theorem callTool_snd (w : JiraWorld) (nm : String) (args : Args)
    (t : ToolSpec) (ht : toolByName nm = some t)
    (hv : validateErrors t.schema args = []) :
    (callTool w nm args).snd = (runTool w nm args []).snd := by
  unfold callTool
  rw [ht]
  simp only [hv, List.isEmpty_nil, if_true]
  rcases hr : runTool w nm args [] with ⟨r, tr⟩
  cases r <;> rfl

theorem searchAndWrap_snd (w : JiraWorld) (jql : String) (t : List RemoteCall) :
    (searchAndWrap w jql t).snd = t ++ [RemoteCall.search jql] := by
  cases hw : w.searchR jql <;>
    simp [searchAndWrap, M.bind_app, callR, hw, M.pure_app]

/-- The value `update_issue`'s priority step resolves (best-effort):
the priority id on a successful case-insensitive match with a truthy id,
nothing otherwise. -/
def updPrioResolved (w : JiraWorld) (pr : Option String) : Option String :=
  match pr with
  | some p =>
      if strTruthy p then
        match w.getPrioritiesR with
        | Except.ok ps => resolveNamedId ps p
        | Except.error _ => none
      else none
  | none => none

/-- The remote calls `update_issue`'s priority step issues. -/
def updPrioTrace (pr : Option String) : List RemoteCall :=
  match pr with
  | some p => if strTruthy p then [RemoteCall.getPriorities] else []
  | none => []

/-- The complete field-update set `update_issue` assembles from its
arguments and the priority lookup. -/
def updAllFields (w : JiraWorld) (sm ds asg pr : Option String) : FieldsUpdate :=
  { updBaseFields sm ds asg with priority := updPrioResolved w pr }

theorem updPrioStep_base_run (w : JiraWorld) (sm ds asg pr : Option String)
    (t : List RemoteCall) :
    updPrioStep w pr (updBaseFields sm ds asg) t
      = (Except.ok (updAllFields w sm ds asg pr), t ++ updPrioTrace pr) := by
  cases pr with
  | none => simp [updPrioStep, updAllFields, updPrioResolved, updPrioTrace, updBaseFields, M.pure_app]
  | some p =>
      cases hp : strTruthy p with
      | false =>
          simp [updPrioStep, updAllFields, updPrioResolved, updPrioTrace, updBaseFields, hp, M.pure_app]
      | true =>
          cases hps : w.getPrioritiesR with
          | ok ps =>
              cases hr : resolveNamedId ps p with
              | some i =>
                  simp [updPrioStep, updAllFields, updPrioResolved, updPrioTrace,
                    updBaseFields, hp, hps, hr, tryCatchM_app, M.bind_app, callR, M.pure_app]
              | none =>
                  simp [updPrioStep, updAllFields, updPrioResolved, updPrioTrace,
                    updBaseFields, hp, hps, hr, tryCatchM_app, M.bind_app, callR, M.pure_app]
          | error e =>
              simp [updPrioStep, updAllFields, updPrioResolved, updPrioTrace,
                updBaseFields, hp, hps, tryCatchM_app, M.bind_app, callR, M.pure_app]

/-- The transition id `update_issue`'s status step resolves
(best-effort). -/
def updTransResolved (w : JiraWorld) (k : String) (st : Option String) :
    Option String :=
  match st with
  | some s =>
      if strTruthy s then
        match w.getTransitionsR k with
        | Except.ok ts => resolveTransitionId ts s
        | Except.error _ => none
      else none
  | none => none

/-- The remote calls `update_issue`'s status step issues. -/
def updTransTrace (k : String) (st : Option String) : List RemoteCall :=
  match st with
  | some s => if strTruthy s then [RemoteCall.getTransitions k] else []
  | none => []

theorem updTransStep_run (w : JiraWorld) (k : String) (st : Option String)
    (t : List RemoteCall) :
    updTransStep w k st t
      = (Except.ok (updTransResolved w k st), t ++ updTransTrace k st) := by
  cases st with
  | none => simp [updTransStep, updTransResolved, updTransTrace, M.pure_app]
  | some s =>
      cases hp : strTruthy s with
      | false =>
          simp [updTransStep, updTransResolved, updTransTrace, hp, M.pure_app]
      | true =>
          cases hts : w.getTransitionsR k with
          | ok ts =>
              simp [updTransStep, updTransResolved, updTransTrace, hp, hts,
                tryCatchM_app, M.bind_app, callR, M.pure_app]
          | error e =>
              simp [updTransStep, updTransResolved, updTransTrace, hp, hts,
                tryCatchM_app, M.bind_app, callR, M.pure_app]

theorem tools_addProps_false : ∀ s ∈ tools, s.schema.addProps = false := by
  decide

/-- C1: for a tool name outside the registry, `call_tool` fails with the
MethodNotFound error (NotFoundTool) before any remote call (empty trace);
for a registered name whose arguments fail the tool's compiled schema, it
fails with InvalidParams (InvalidInput) carrying the validator's joined
messages, again with an empty trace — in both cases no remote API call is
issued. -/
theorem c1_dispatch_fails_before_remote (w : JiraWorld) (nm : String) (args : Args) :
    (toolByName nm = none →
      callTool w nm args
        = (Except.error ⟨ErrorCode.methodNotFound,
            "Tool \"" ++ nm ++ "\" not found.", none⟩, []))
    ∧ (∀ t, toolByName nm = some t → validateErrors t.schema args ≠ [] →
        callTool w nm args
          = (Except.error ⟨ErrorCode.invalidParams,
              "Invalid arguments for tool " ++ nm ++ ": "
                ++ String.intercalate (", ") (validateErrors t.schema args),
              none⟩, [])) :=
  ⟨fun h => callTool_notFound w nm args h,
   fun t ht hv => callTool_invalid w nm args t ht hv⟩

theorem c1_dispatch_fails_before_remote_witness :
    callTool wEx ("no_such_tool") []
      = (Except.error ⟨ErrorCode.methodNotFound,
          "Tool \"" ++ ("no_such_tool") ++ "\" not found.", none⟩, [])
    ∧ callTool wEx ("update_issue") []
      = (Except.error ⟨ErrorCode.invalidParams,
          "Invalid arguments for tool " ++ ("update_issue") ++ ": "
            ++ String.intercalate (", ") (validateErrors updateSchema []),
          none⟩, []) :=
  ⟨(c1_dispatch_fails_before_remote wEx ("no_such_tool") []).1 rfl,
   (c1_dispatch_fails_before_remote wEx ("update_issue") []).2
     ⟨("update_issue"), updateSchema⟩ rfl (by decide)⟩

/-- C3: a `get_issues` call with neither projectKey nor rapidView passes
the compiled schema (which has no required keys), reaches the handler and
throws InvalidParams inside the `try` block with no remote call issued —
but the catch block re-wraps that McpError using `error?.status || 500`
(an McpError has no `status` field), so the surfaced error code is
InternalError, not the InvalidInput the claim states.  The class-based
variant's schema (`anyOf` of the two keys) and the repository's own test
expect InvalidParams here. -/
theorem c3_get_issues_missing_selector_surfaces_internal_error (w : JiraWorld) :
    callTool w ("get_issues") []
      = (Except.error (translateError (ThrownError.mcp ErrorCode.invalidParams
          ("Either projectKey or rapidView must be provided"))), [])
    ∧ (translateError (ThrownError.mcp ErrorCode.invalidParams
        ("Either projectKey or rapidView must be provided"))).code
        = ErrorCode.internalError
    ∧ ErrorCode.internalError ≠ ErrorCode.invalidParams :=
  ⟨rfl, rfl, by decide⟩

/-- C9: every error escaping a workflow handler is re-expressed by the
dispatcher's catch block as `translateError e`: its code is the
classification of the upstream status (400 to InvalidParams, 401/403 to
InvalidRequest as the permission-denied variant, 404 to InvalidRequest as
the not-found variant, anything else — including a missing status, which
defaults to 500 — to InternalError), its message embeds the upstream
status code and the upstream message text, and the original error is
attached. -/
theorem c9_catch_block_classification (w : JiraWorld) (nm : String) (args : Args)
    (t : ToolSpec) (e : ThrownError) (tr : List RemoteCall) :
    (toolByName nm = some t → validateErrors t.schema args = [] →
      runTool w nm args [] = (Except.error e, tr) →
      callTool w nm args = (Except.error (translateError e), tr))
    ∧ translateError e
        = ⟨classifyStatus (jsErrStatus e),
           "Jira API Error (" ++ toString (jsErrStatus e) ++ "): " ++ jsErrMessage e,
           some e⟩
    ∧ classifyStatus 400 = ErrorCode.invalidParams
    ∧ classifyStatus 401 = ErrorCode.invalidRequest
    ∧ classifyStatus 403 = ErrorCode.invalidRequest
    ∧ classifyStatus 404 = ErrorCode.invalidRequest
    ∧ (∀ n : Nat, n ≠ 400 → n ≠ 401 → n ≠ 403 → n ≠ 404 →
        classifyStatus n = ErrorCode.internalError)
    ∧ (∀ je : JiraErr, je.status = none →
        jsErrStatus (ThrownError.jira je) = 500) := by
  refine ⟨fun ht hv hr => callTool_run_err w nm args t e tr ht hv hr,
    rfl, rfl, rfl, rfl, rfl, ?_, ?_⟩
  · intro n h1 h2 h3 h4
    simp [classifyStatus, h1, h2, h3, h4]
  · intro je hje
    simp [jsErrStatus, thrownStatusField, hje]

theorem c9_catch_block_classification_witness :
    callTool wErr ("delete_issue") [(("issueKey"), JVal.jstr ("A-1"))]
      = (Except.error (translateError (ThrownError.jira jiraErr404)),
         [RemoteCall.deleteIssue ("A-1")]) :=
  (c9_catch_block_classification wErr ("delete_issue")
    [(("issueKey"), JVal.jstr ("A-1"))] ⟨("delete_issue"), deleteSchema⟩
    (ThrownError.jira jiraErr404) [RemoteCall.deleteIssue ("A-1")]).1 rfl rfl rfl

/-- C10: every registry schema sets `additionalProperties: false`, and a
registered tool called with an argument object containing any key not
declared in its schema fails validation: `call_tool` returns the
InvalidParams error with the validator's messages and an empty trace, so
no remote API call is made. -/
theorem c10_additional_properties_rejected (w : JiraWorld) (nm : String)
    (args : Args) (t : ToolSpec) :
    (∀ s ∈ tools, s.schema.addProps = false)
    ∧ (toolByName nm = some t →
       args.any (fun kv => !(t.schema.props.any (fun p => p.fst == kv.fst))) = true →
       callTool w nm args
         = (Except.error ⟨ErrorCode.invalidParams,
             "Invalid arguments for tool " ++ nm ++ ": "
               ++ String.intercalate (", ") (validateErrors t.schema args),
             none⟩, [])) := by
  refine ⟨tools_addProps_false, fun ht hany => ?_⟩
  apply callTool_invalid w nm args t ht
  have haddf : t.schema.addProps = false :=
    tools_addProps_false t (List.mem_of_find?_eq_some ht)
  obtain ⟨kv, hkv, hnp⟩ := List.any_eq_true.mp hany
  have hnp' : t.schema.props.any (fun p => p.fst == kv.fst) = false := by
    simpa using hnp
  intro hnil
  have hb : ("must NOT have additional properties (" ++ kv.fst ++ ")")
      ∈ args.filterMap (fun kv =>
          if t.schema.props.any (fun p => p.fst == kv.fst) then none
          else some ("must NOT have additional properties (" ++ kv.fst ++ ")")) :=
    List.mem_filterMap.mpr ⟨kv, hkv, by simp [hnp']⟩
  have hmem : ("must NOT have additional properties (" ++ kv.fst ++ ")")
      ∈ validateErrors t.schema args := by
    unfold validateErrors
    rw [haddf]
    simp only [Bool.false_eq_true, if_false, List.mem_append]
    exact Or.inl (Or.inl (Or.inr hb))
  rw [hnil] at hmem
  exact absurd hmem (List.not_mem_nil _)

theorem c10_additional_properties_rejected_witness :
    callTool wEx ("update_issue")
        [(("issueKey"), JVal.jstr ("A-1")), (("labels"), JVal.jarr [JVal.jstr ("x")])]
      = (Except.error ⟨ErrorCode.invalidParams,
          "Invalid arguments for tool " ++ ("update_issue") ++ ": "
            ++ String.intercalate (", ")
              (validateErrors updateSchema
                [(("issueKey"), JVal.jstr ("A-1")),
                 (("labels"), JVal.jarr [JVal.jstr ("x")])]),
          none⟩, []) :=
  (c10_additional_properties_rejected wEx ("update_issue")
      [(("issueKey"), JVal.jstr ("A-1")), (("labels"), JVal.jarr [JVal.jstr ("x")])]
      ⟨("update_issue"), updateSchema⟩).2 rfl rfl

/-- C7 counterexample: with `additionalJql` given as the empty string,
the handler issues the bare base filter — not the base filter followed by
` AND ()` as the claim's clause for a given `additionalJql` dictates —
because JavaScript truthiness treats the empty string as absent. -/
theorem c7_counterexample_empty_additional_jql :
    (callTool wEx ("get_assigned_issues")
        [(("accountId"), JVal.jstr ("user-123")),
         (("additionalJql"), JVal.jstr (""))]).snd
      = [RemoteCall.search ("assignee = \"user-123\"")]
    ∧ ("assignee = \"user-123\"" : String)
        ≠ ("assignee = \"user-123\"" : String) ++ " AND (" ++ "" ++ ")" :=
  ⟨rfl, by decide⟩

/-- C7 amended: for every `get_assigned_issues` call the remote search is
issued with exactly the base filter determined by the status argument
(`assignee = "a"` for current or absent, `assignee WAS "a"` for past, the
parenthesized disjunction for all), with ` AND (q)` appended exactly when
a non-empty `additionalJql` q is given; an empty `additionalJql` is
treated as absent. -/
theorem c7_amended_assigned_jql (w : JiraWorld) (a q : String) (st : Option String)
    (hst : st = none ∨ st = some ("current") ∨ st = some ("past")
      ∨ st = some ("all"))
    (hq : strTruthy q = true) :
    ((callTool w ("get_assigned_issues") (mkAssignedArgs a st none)).snd
      = [RemoteCall.search (assignedBaseJql a st)])
    ∧ ((callTool w ("get_assigned_issues") (mkAssignedArgs a st (some ("")))).snd
      = [RemoteCall.search (assignedBaseJql a st)])
    ∧ ((callTool w ("get_assigned_issues") (mkAssignedArgs a st (some q))).snd
      = [RemoteCall.search (assignedBaseJql a st ++ " AND (" ++ q ++ ")")]) := by
  refine ⟨?_, ?_, ?_⟩
  · rw [callTool_snd w ("get_assigned_issues") (mkAssignedArgs a st none)
      ⟨("get_assigned_issues"), assignedSchema⟩ rfl
      (validate_assigned_args a st none hst)]
    simp only [runTool, getAssignedIssuesM, searchAndWrap_snd, List.nil_append,
      List.cons.injEq, and_true]
    simp [assignedJql, getStr_assigned_accountId, getStr_assigned_status,
      getStr_assigned_additionalJql]
  · rw [callTool_snd w ("get_assigned_issues") (mkAssignedArgs a st (some ("")))
      ⟨("get_assigned_issues"), assignedSchema⟩ rfl
      (validate_assigned_args a st (some ("")) hst)]
    simp only [runTool, getAssignedIssuesM, searchAndWrap_snd, List.nil_append,
      List.cons.injEq, and_true]
    simp [assignedJql, getStr_assigned_accountId, getStr_assigned_status,
      getStr_assigned_additionalJql, strTruthy]
  · rw [callTool_snd w ("get_assigned_issues") (mkAssignedArgs a st (some q))
      ⟨("get_assigned_issues"), assignedSchema⟩ rfl
      (validate_assigned_args a st (some q) hst)]
    simp only [runTool, getAssignedIssuesM, searchAndWrap_snd, List.nil_append,
      List.cons.injEq, and_true]
    simp [assignedJql, getStr_assigned_accountId, getStr_assigned_status,
      getStr_assigned_additionalJql, hq]

/-- C8 counterexample: with the `jql` argument given as the empty string,
the handler issues `project = "TEST"` alone — not
`project = "TEST" AND ` as the claim's clause for a given jql argument
dictates — because JavaScript truthiness treats the empty string as
absent. -/
theorem c8_counterexample_empty_jql :
    (callTool wEx ("get_issues")
        [(("projectKey"), JVal.jstr ("TEST")), (("jql"), JVal.jstr (""))]).snd
      = [RemoteCall.search ("project = \"TEST\"")]
    ∧ ("project = \"TEST\"" : String)
        ≠ ("project = \"TEST\"" : String) ++ " AND " ++ "" :=
  ⟨rfl, by decide⟩

/-- C8 amended: for every `get_issues` call with a non-empty projectKey p
and no rapidView, the remote search is issued with exactly
`project = "p"` when the jql argument is absent or empty, and with
`project = "p" AND q` (q unparenthesized) when a non-empty jql q is
given; an empty projectKey would instead fall through to the
missing-arguments error, and an empty jql is treated as absent. -/
theorem c8_amended_project_jql (w : JiraWorld) (p q : String)
    (hp : strTruthy p = true) (hq : strTruthy q = true) :
    ((callTool w ("get_issues") (mkIssuesArgs p none)).snd
      = [RemoteCall.search ("project = \"" ++ p ++ "\"")])
    ∧ ((callTool w ("get_issues") (mkIssuesArgs p (some ("")))).snd
      = [RemoteCall.search ("project = \"" ++ p ++ "\"")])
    ∧ ((callTool w ("get_issues") (mkIssuesArgs p (some q))).snd
      = [RemoteCall.search ("project = \"" ++ p ++ "\" AND " ++ q)]) := by
  refine ⟨?_, ?_, ?_⟩
  · rw [callTool_snd w ("get_issues") (mkIssuesArgs p none)
      ⟨("get_issues"), getIssuesSchema⟩ rfl (validate_issues_args p none)]
    simp only [runTool, getIssuesM, truthy_issues_rapidView,
      truthy_issues_projectKey, hp, Bool.false_eq_true, if_false, if_true,
      searchAndWrap_snd, List.nil_append, List.cons.injEq, and_true]
    simp [projectJql, getStr_issues_projectKey, getStr_issues_jql]
  · rw [callTool_snd w ("get_issues") (mkIssuesArgs p (some ("")))
      ⟨("get_issues"), getIssuesSchema⟩ rfl (validate_issues_args p (some ("")))]
    simp only [runTool, getIssuesM, truthy_issues_rapidView,
      truthy_issues_projectKey, hp, Bool.false_eq_true, if_false, if_true,
      searchAndWrap_snd, List.nil_append, List.cons.injEq, and_true]
    simp [projectJql, getStr_issues_projectKey, getStr_issues_jql, strTruthy]
  · rw [callTool_snd w ("get_issues") (mkIssuesArgs p (some q))
      ⟨("get_issues"), getIssuesSchema⟩ rfl (validate_issues_args p (some q))]
    simp only [runTool, getIssuesM, truthy_issues_rapidView,
      truthy_issues_projectKey, hp, Bool.false_eq_true, if_false, if_true,
      searchAndWrap_snd, List.nil_append, List.cons.injEq, and_true]
    simp [projectJql, getStr_issues_projectKey, getStr_issues_jql, hq]

theorem c7_amended_assigned_jql_witness :
    (callTool wEx ("get_assigned_issues")
        (mkAssignedArgs ("user-123") (some ("past"))
          (some ("project = \"TEST\"")))).snd
      = [RemoteCall.search (assignedBaseJql ("user-123") (some ("past"))
          ++ " AND (" ++ ("project = \"TEST\"") ++ ")")] :=
  (c7_amended_assigned_jql wEx ("user-123") ("project = \"TEST\"")
    (some ("past")) (Or.inr (Or.inr (Or.inl rfl))) rfl).2.2

theorem c8_amended_project_jql_witness :
    (callTool wEx ("get_issues") (mkIssuesArgs ("TEST") (some ("status = Done")))).snd
      = [RemoteCall.search ("project = \"" ++ ("TEST") ++ "\" AND "
          ++ ("status = Done"))] :=
  (c8_amended_project_jql wEx ("TEST") ("status = Done") rfl rfl).2.2

/-- C6: an `update_issue` call supplying only the issue key and a status,
where the status resolves to no transition (the transitions lookup errors,
or no destination-state name matches case-insensitively), returns the
no-op success message and issues exactly one remote call — the
transitions read — and in particular neither the field-update mutation
nor the transition mutation. -/
theorem c6_update_unresolvable_status_noop (w : JiraWorld) (k st : String)
    (hst : strTruthy st = true)
    (hfail : (∃ je, w.getTransitionsR k = Except.error je)
      ∨ ∃ ts, w.getTransitionsR k = Except.ok ts
          ∧ resolveTransitionId ts st = none) :
    callTool w ("update_issue") (mkUpdateArgs k none none none st none)
      = (Except.ok (ToolResult.raw true (noopMsg k)),
         [RemoteCall.getTransitions k])
    ∧ (∀ f, RemoteCall.editIssue k f ∉ [RemoteCall.getTransitions k])
    ∧ (∀ i, RemoteCall.doTransition k i ∉ [RemoteCall.getTransitions k]) := by
  refine ⟨?_, by simp, by simp⟩
  apply callTool_run_ok w ("update_issue") (mkUpdateArgs k none none none st none)
    ⟨("update_issue"), updateSchema⟩ _ _ rfl
    (validate_update_args k st none none none none)
  show updateIssueM w (mkUpdateArgs k none none none st none) [] = _
  rcases hfail with ⟨je, hje⟩ | ⟨ts, hts, hres⟩
  · simp only [updateIssueM, getStr_update_issueKey, getStr_update_summary,
      getStr_update_description, getStr_update_assignee, getStr_update_status,
      getStr_update_priority, Option.getD_some, M.bind_app, updPrioStep_base_run,
      updPrioTrace, updTransStep_run, updTransTrace, updTransResolved, hst, hje,
      if_true, List.nil_append, List.append_nil]
    simp [updAllFields, updBaseFields, updPrioResolved, optTruthyFilter,
      FieldsUpdate.isEmpty, M.pure_app]
  · simp only [updateIssueM, getStr_update_issueKey, getStr_update_summary,
      getStr_update_description, getStr_update_assignee, getStr_update_status,
      getStr_update_priority, Option.getD_some, M.bind_app, updPrioStep_base_run,
      updPrioTrace, updTransStep_run, updTransTrace, updTransResolved, hst, hts,
      hres, if_true, List.nil_append, List.append_nil]
    simp [updAllFields, updBaseFields, updPrioResolved, optTruthyFilter,
      FieldsUpdate.isEmpty, M.pure_app]

/-- C4: an `update_issue` call whose assembled field set is non-empty and
whose status resolves to a transition id issues, in order, the
transitions read, the field-update mutation (editIssue), then the
transition mutation (doTransition) strictly after it, and finally exactly
one read (getIssue) whose result is returned wrapped to the caller —
shown by the exact trace equality, in which editIssue precedes
doTransition and getIssue is the unique final read. -/
theorem c4_update_edit_before_transition (w : JiraWorld) (k st tid : String)
    (sm ds asg pr : Option String) (ts : List Transition) (v : JVal)
    (hst : strTruthy st = true)
    (hT : w.getTransitionsR k = Except.ok ts)
    (hR : resolveTransitionId ts st = some tid)
    (hne : (updAllFields w sm ds asg pr).isEmpty = false)
    (hE : w.editIssueR k (updAllFields w sm ds asg pr) = Except.ok ())
    (hD : w.doTransitionR k tid = Except.ok ())
    (hG : w.getIssueR k = Except.ok v) :
    callTool w ("update_issue") (mkUpdateArgs k sm ds asg st pr)
      = (Except.ok (ToolResult.wrapped v),
         updPrioTrace pr
           ++ [RemoteCall.getTransitions k,
               RemoteCall.editIssue k (updAllFields w sm ds asg pr),
               RemoteCall.doTransition k tid, RemoteCall.getIssue k]) := by
  apply callTool_run_ok w ("update_issue") (mkUpdateArgs k sm ds asg st pr)
    ⟨("update_issue"), updateSchema⟩ _ _ rfl (validate_update_args k st sm ds asg pr)
  show updateIssueM w (mkUpdateArgs k sm ds asg st pr) [] = _
  simp only [updateIssueM, getStr_update_issueKey, getStr_update_summary,
    getStr_update_description, getStr_update_assignee, getStr_update_status,
    getStr_update_priority, Option.getD_some, M.bind_app, updPrioStep_base_run,
    updTransStep_run, updTransTrace, updTransResolved, hst, hT, hR, if_true,
    List.nil_append]
  simp only [hne, Bool.false_eq_true, if_false, M.bind_app, callR, hE, hD, hG,
    M.pure_app]
  simp [List.append_assoc]

theorem c4_update_edit_before_transition_witness :
    callTool wEx ("update_issue")
        (mkUpdateArgs ("A-1") (some ("S")) none none ("Done") none)
      = (Except.ok (ToolResult.wrapped (JVal.jobj [(("key"), JVal.jstr ("X-1"))])),
         updPrioTrace none
           ++ [RemoteCall.getTransitions ("A-1"),
               RemoteCall.editIssue ("A-1")
                 (updAllFields wEx (some ("S")) none none none),
               RemoteCall.doTransition ("A-1") ("71"),
               RemoteCall.getIssue ("A-1")]) :=
  c4_update_edit_before_transition wEx ("A-1") ("Done") ("71")
    (some ("S")) none none none [⟨some ("71"), some ("Done")⟩]
    (JVal.jobj [(("key"), JVal.jstr ("X-1"))])
    rfl rfl (by decide) (by decide) rfl rfl rfl

theorem c6_update_unresolvable_status_noop_witness :
    (callTool wEx ("update_issue")
        (mkUpdateArgs ("A-1") none none none ("Frozen") none)
      = (Except.ok (ToolResult.raw true (noopMsg ("A-1"))),
         [RemoteCall.getTransitions ("A-1")]))
    ∧ (∀ f, RemoteCall.editIssue ("A-1") f ∉ [RemoteCall.getTransitions ("A-1")]) :=
  ⟨(c6_update_unresolvable_status_noop wEx ("A-1") ("Frozen") rfl
      (Or.inr ⟨[⟨some ("71"), some ("Done")⟩], rfl, by decide⟩)).1,
   (c6_update_unresolvable_status_noop wEx ("A-1") ("Frozen") rfl
      (Or.inr ⟨[⟨some ("71"), some ("Done")⟩], rfl, by decide⟩)).2.1⟩

/-- C2: a `create_issue` call whose issue-type name has no
case-insensitive exact match among the remotely fetched issue types
fails — the handler throws the resolution-failure error
`Issue type "..." not found.` (surfaced through the catch block) — and
the trace contains only the project read and the issue-type read: the
create-issue mutation is never invoked. -/
theorem c2_create_unknown_issue_type (w : JiraWorld) (pk sm it pid : String)
    (ds asg : Option String) (lb cp : Option (List String)) (pr : Option String)
    (its : List NamedId)
    (hproj : w.getProjectIdR pk = Except.ok (some pid))
    (hpid : strTruthy pid = true)
    (htys : w.getIssueAllTypesR = Except.ok its)
    (hty : its.find? (nameMatches it) = none) :
    callTool w ("create_issue") (mkCreateArgs pk sm it ds asg lb cp pr)
      = (Except.error (translateError (ThrownError.mcp ErrorCode.invalidParams
           ("Issue type \"" ++ it ++ "\" not found."))),
         [RemoteCall.getProject pk, RemoteCall.getIssueAllTypes])
    ∧ (∀ f, RemoteCall.createIssue f
         ∉ [RemoteCall.getProject pk, RemoteCall.getIssueAllTypes]) := by
  refine ⟨?_, by simp⟩
  apply callTool_run_err w ("create_issue") (mkCreateArgs pk sm it ds asg lb cp pr)
    ⟨("create_issue"), createSchema⟩ _ _ rfl
    (validate_create_args pk sm it ds asg lb cp pr)
  show createIssueM w (mkCreateArgs pk sm it ds asg lb cp pr) [] = _
  simp only [createIssueM, getStr_create_projectKey, getStr_create_summary,
    getStr_create_issueType, getStr_create_description, getStr_create_assignee,
    getStr_create_priority, getStrList_create_labels, getStrList_create_components,
    Option.getD_some, M.bind_app, callR, hproj, hpid, if_true, htys,
    resolveNamedId, hty, M.pure_app, throwM_app, List.nil_append]
  rfl

theorem c2_create_unknown_issue_type_witness :
    callTool wEx ("create_issue")
        (mkCreateArgs ("T") ("s") ("Epic") none none none none none)
      = (Except.error (translateError (ThrownError.mcp ErrorCode.invalidParams
           ("Issue type \"" ++ ("Epic") ++ "\" not found."))),
         [RemoteCall.getProject ("T"), RemoteCall.getIssueAllTypes]) :=
  (c2_create_unknown_issue_type wEx ("T") ("s") ("Epic") ("10000")
    none none none none none [⟨some ("3"), some ("Task")⟩]
    rfl rfl rfl (by decide)).1

/-- The value `create_issue`'s component step resolves. -/
def compResolved (w : JiraWorld) (pid : String) (cp : Option (List String)) :
    List String :=
  match cp with
  | some cs =>
      if cs.length > 0 then
        match w.getProjectComponentsR pid with
        | Except.ok pcs => cs.filterMap (fun cn => resolveNamedId pcs cn)
        | Except.error _ => []
      else []
  | none => []

/-- The remote calls `create_issue`'s component step issues. -/
def compTrace (pid : String) (cp : Option (List String)) : List RemoteCall :=
  match cp with
  | some cs => if cs.length > 0 then [RemoteCall.getProjectComponents pid] else []
  | none => []

theorem createPrioStep_run (w : JiraWorld) (pr : Option String)
    (t : List RemoteCall) :
    createPrioStep w pr t
      = (Except.ok (updPrioResolved w pr), t ++ updPrioTrace pr) := by
  cases pr with
  | none => simp [createPrioStep, updPrioResolved, updPrioTrace, M.pure_app]
  | some p =>
      cases hp : strTruthy p with
      | false =>
          simp [createPrioStep, updPrioResolved, updPrioTrace, hp, M.pure_app]
      | true =>
          cases hps : w.getPrioritiesR with
          | ok ps =>
              simp [createPrioStep, updPrioResolved, updPrioTrace, hp, hps,
                tryCatchM_app, M.bind_app, callR, M.pure_app]
          | error e =>
              simp [createPrioStep, updPrioResolved, updPrioTrace, hp, hps,
                tryCatchM_app, M.bind_app, callR, M.pure_app]

theorem createCompStep_run (w : JiraWorld) (pid : String)
    (cp : Option (List String)) (t : List RemoteCall) :
    createCompStep w pid cp t
      = (Except.ok (compResolved w pid cp), t ++ compTrace pid cp) := by
  cases cp with
  | none => simp [createCompStep, compResolved, compTrace, M.pure_app]
  | some cs =>
      cases cs with
      | nil => simp [createCompStep, compResolved, compTrace, M.pure_app]
      | cons c cs' =>
          cases hw : w.getProjectComponentsR pid with
          | ok pcs =>
              simp [createCompStep, compResolved, compTrace, hw,
                tryCatchM_app, M.bind_app, callR, M.pure_app]
          | error e =>
              simp [createCompStep, compResolved, compTrace, hw,
                tryCatchM_app, M.bind_app, callR, M.pure_app]

theorem compTrace_filter_no_create (pid : String) (cp : Option (List String)) :
    (compTrace pid cp).filter isCreateCall = [] := by
  cases cp with
  | none => rfl
  | some cs =>
      by_cases h : cs.length > 0 <;> simp [compTrace, h, isCreateCall]

/-- C5: a `create_issue` call whose project and issue-type resolutions
succeed but whose truthy priority name either fails to match any fetched
priority or whose priorities lookup errors still succeeds: the assembled
payload omits the priority field (it is `none`), and filtering the trace
to create-issue mutations leaves exactly one call — the single
create-issue mutation with that payload. -/
theorem c5_create_unknown_priority_still_succeeds (w : JiraWorld)
    (pk sm it pr pid tyId : String) (ds asg : Option String)
    (lb cp : Option (List String)) (its : List NamedId)
    (hproj : w.getProjectIdR pk = Except.ok (some pid))
    (hpid : strTruthy pid = true)
    (htys : w.getIssueAllTypesR = Except.ok its)
    (hty : resolveNamedId its it = some tyId)
    (hpr : strTruthy pr = true)
    (hprio : (∃ je, w.getPrioritiesR = Except.error je)
      ∨ ∃ ps, w.getPrioritiesR = Except.ok ps ∧ resolveNamedId ps pr = none)
    (hcr : ∀ f, ∃ u, w.createIssueR f = Except.ok u) :
    ∃ f out tr,
      callTool w ("create_issue") (mkCreateArgs pk sm it ds asg lb cp (some pr))
        = (Except.ok (ToolResult.wrapped out), tr)
      ∧ f.priority = none
      ∧ tr.filter isCreateCall = [RemoteCall.createIssue f] := by
  have hprioRes : updPrioResolved w (some pr) = none := by
    rcases hprio with ⟨je, hje⟩ | ⟨ps, hps, hres⟩
    · simp [updPrioResolved, hpr, hje]
    · simp [updPrioResolved, hpr, hps, hres]
  obtain ⟨u, hu⟩ :=
    hcr (createFieldsOf pid sm tyId ds asg lb (compResolved w pid cp) none)
  refine ⟨createFieldsOf pid sm tyId ds asg lb (compResolved w pid cp) none, u,
    RemoteCall.getProject pk :: RemoteCall.getIssueAllTypes ::
      (updPrioTrace (some pr) ++ (compTrace pid cp
        ++ [RemoteCall.createIssue
             (createFieldsOf pid sm tyId ds asg lb (compResolved w pid cp) none)])),
    ?_, rfl, ?_⟩
  · apply callTool_run_ok w ("create_issue")
      (mkCreateArgs pk sm it ds asg lb cp (some pr))
      ⟨("create_issue"), createSchema⟩ _ _ rfl
      (validate_create_args pk sm it ds asg lb cp (some pr))
    show createIssueM w (mkCreateArgs pk sm it ds asg lb cp (some pr)) [] = _
    simp only [createIssueM, getStr_create_projectKey, getStr_create_summary,
      getStr_create_issueType, getStr_create_description, getStr_create_assignee,
      getStr_create_priority, getStrList_create_labels,
      getStrList_create_components, Option.getD_some, M.bind_app, callR, hproj,
      hpid, if_true, htys, hty, M.pure_app, createPrioStep_run, hprioRes,
      createCompStep_run, hu, List.nil_append, List.append_assoc,
      List.cons_append, List.singleton_append]
  · simp only [List.filter_cons, List.filter_append, isCreateCall,
      Bool.false_eq_true, if_false, updPrioTrace, hpr, if_true,
      compTrace_filter_no_create, List.filter_cons, List.filter_nil,
      List.nil_append]

theorem c5_create_unknown_priority_still_succeeds_witness :
    ∃ f out tr,
      callTool wEx ("create_issue")
          (mkCreateArgs ("T") ("s") ("task") none none none none (some ("Blocker")))
        = (Except.ok (ToolResult.wrapped out), tr)
      ∧ f.priority = none
      ∧ tr.filter isCreateCall = [RemoteCall.createIssue f] :=
  c5_create_unknown_priority_still_succeeds wEx ("T") ("s") ("task") ("Blocker")
    ("10000") ("3") none none none none [⟨some ("3"), some ("Task")⟩]
    rfl rfl rfl (by decide) rfl
    (Or.inr ⟨[], rfl, rfl⟩)
    (fun f => ⟨JVal.jobj [(("key"), JVal.jstr ("X-2"))], rfl⟩)

end JiraMcp
